import Mathlib

/-!
Verification of the application bootstrap configuration in
`src/app/app.config.ts`.

The file under verification declares a single constant
`appConfig : ApplicationConfig` whose only field is a list of provider
entries, each produced by a framework initializer call.  The two external
inputs the record depends on are the route table imported from
`./app.routes` (the `routes` value) and the development-build predicate
`isDevMode` imported from the framework.  The shallow embedding below
represents each framework initializer call as a constructor of a
`Provider` inductive, carrying exactly the arguments the source passes,
and parameterizes `appConfig` by the two external inputs.

The framework API itself (the set of available initializers, the
alternative change-detection mode, the alternative HTTP transports, the
hydration features and the devtools option fields) is external library
surface, not repository code; the inductives below model the relevant
alternatives of that surface so that "zone-free rather than zone-based",
"fetch rather than the default transport" and "no other devtools option"
are expressible.
-/

/-- A route definition.  The route table is imported from `./app.routes`,
which is outside the verified file; its entries are opaque here. -/
structure Route where
  path : String
deriving DecidableEq, Repr

/-- A root reducer registration, as could be passed to the store
initializer.  The source passes none, so entries stay opaque. -/
abbrev Reducer := String

/-- A root effects-class registration, as could be passed to the effects
initializer.  The source passes none, so entries stay opaque. -/
abbrev EffectsSource := String

/-- Features accepted by the client-hydration initializer
(`withEventReplay` and the other hydration features of the framework). -/
inductive HydrationFeature where
  | eventReplay
  | i18nSupport
  | noHttpTransferCache
deriving DecidableEq, Repr

/-- The hydration feature produced by the `withEventReplay()` call. -/
def withEventReplay : HydrationFeature := HydrationFeature.eventReplay

/-- Features accepted by the HTTP-client initializer (`withFetch` and
other features of the framework's HTTP surface). -/
inductive HttpFeature where
  | fetch
  | jsonpSupport
  | interceptors
deriving DecidableEq, Repr

/-- The HTTP feature produced by the `withFetch()` call. -/
def withFetch : HttpFeature := HttpFeature.fetch

/-- The underlying HTTP transport primitive the HTTP client ends up
using: the default XMLHttpRequest-based transport, or the fetch-based
one selected by the `withFetch` feature. -/
inductive HttpTransport where
  | xhr
  | fetch
deriving DecidableEq, Repr

/-- A field of the store-devtools options object.  The framework
recognizes more options than the source sets; the ones named by the
claims (`maxAge`, `logOnly`, `trace`, `autoPause`, `name`) are modelled. -/
inductive DevtoolsField where
  | maxAge (n : Nat)
  | logOnly (b : Bool)
  | trace (b : Bool)
  | autoPause (b : Bool)
  | name (s : String)
deriving DecidableEq, Repr

/-- The name (key) of a devtools options field, forgetting its value. -/
inductive DevtoolsFieldName where
  | maxAge
  | logOnly
  | trace
  | autoPause
  | name
deriving DecidableEq, Repr

/-- Map a devtools options field to its key. -/
def fieldName : DevtoolsField → DevtoolsFieldName
  | DevtoolsField.maxAge _ => DevtoolsFieldName.maxAge
  | DevtoolsField.logOnly _ => DevtoolsFieldName.logOnly
  | DevtoolsField.trace _ => DevtoolsFieldName.trace
  | DevtoolsField.autoPause _ => DevtoolsFieldName.autoPause
  | DevtoolsField.name _ => DevtoolsFieldName.name

/-- The change-detection mode selectable at bootstrap: the framework's
zone-based default or the zone-free (zoneless) mode. -/
inductive ChangeDetectionMode where
  | zoneBased
  | zoneless
deriving DecidableEq, Repr

/-- A provider entry of the configuration record.  Each constructor is
one framework initializer call, carrying the arguments the call takes;
`provideZoneChangeDetection` is the framework's zone-based alternative,
present in the API but unused by the source. -/
inductive Provider where
  | provideBrowserGlobalErrorListeners
  | provideZonelessChangeDetection
  | provideZoneChangeDetection
  | provideRouter (routes : List Route)
  | provideClientHydration (features : List HydrationFeature)
  | providePrimeNG
  | provideStore (rootReducers : List Reducer)
  | provideEffects (rootEffects : List EffectsSource)
  | provideStoreDevtools (options : List DevtoolsField)
  | provideHttpClient (features : List HttpFeature)
deriving DecidableEq, Repr

/-- The `ApplicationConfig` shape: a record whose sole field is the
providers list. -/
structure ApplicationConfig where
  providers : List Provider
deriving DecidableEq, Repr

/-- The configuration record of `src/app/app.config.ts`, parameterized
by its two external inputs: the route table from `./app.routes` and the
value of the framework's development-build predicate `isDevMode`
(evaluated once at module load).  The providers list is the source's
array, entry for entry, in order. -/
def appConfig (routes : List Route) (isDevMode : Bool) : ApplicationConfig :=
  { providers :=
      [ Provider.provideBrowserGlobalErrorListeners,
        Provider.provideZonelessChangeDetection,
        Provider.provideRouter routes,
        Provider.provideClientHydration [withEventReplay],
        Provider.providePrimeNG,
        Provider.provideStore [],
        Provider.provideEffects [],
        Provider.provideStoreDevtools
          [DevtoolsField.maxAge 25, DevtoolsField.logOnly (!isDevMode)],
        Provider.provideHttpClient [withFetch] ] }

/-- The options object of the devtools entry, if one is present. -/
def devtoolsOptions (cfg : ApplicationConfig) : Option (List DevtoolsField) :=
  cfg.providers.findSome? fun p =>
    match p with
    | Provider.provideStoreDevtools opts => some opts
    | _ => none

/-- Look up the `logOnly` field in a devtools options object. -/
def lookupLogOnly (opts : List DevtoolsField) : Option Bool :=
  opts.findSome? fun f =>
    match f with
    | DevtoolsField.logOnly b => some b
    | _ => none

/-- Look up the `maxAge` field in a devtools options object. -/
def lookupMaxAge (opts : List DevtoolsField) : Option Nat :=
  opts.findSome? fun f =>
    match f with
    | DevtoolsField.maxAge n => some n
    | _ => none

/-- The `logOnly` value of the configuration's devtools entry. -/
def devtoolsLogOnly (cfg : ApplicationConfig) : Option Bool :=
  (devtoolsOptions cfg).bind lookupLogOnly

/-- The `maxAge` value of the configuration's devtools entry. -/
def devtoolsMaxAge (cfg : ApplicationConfig) : Option Nat :=
  (devtoolsOptions cfg).bind lookupMaxAge

/-- The keys of the devtools options object, in order. -/
def devtoolsFieldNames (cfg : ApplicationConfig) : Option (List DevtoolsFieldName) :=
  (devtoolsOptions cfg).map fun opts => opts.map fieldName

/-- The feature list of the HTTP-client entry, if one is present. -/
def httpClientFeatures (cfg : ApplicationConfig) : Option (List HttpFeature) :=
  cfg.providers.findSome? fun p =>
    match p with
    | Provider.provideHttpClient fs => some fs
    | _ => none

/-- The transport the HTTP-client entry selects: fetch when the
`withFetch` feature is among its features, otherwise the default XHR
transport. -/
def httpClientTransport (cfg : ApplicationConfig) : Option HttpTransport :=
  (httpClientFeatures cfg).map fun fs =>
    if fs.any (fun f => f == HttpFeature.fetch) then HttpTransport.fetch
    else HttpTransport.xhr

/-- The change-detection mode the configuration selects, if any. -/
def changeDetectionMode (cfg : ApplicationConfig) : Option ChangeDetectionMode :=
  cfg.providers.findSome? fun p =>
    match p with
    | Provider.provideZonelessChangeDetection => some ChangeDetectionMode.zoneless
    | Provider.provideZoneChangeDetection => some ChangeDetectionMode.zoneBased
    | _ => none

/-- The feature list of the client-hydration entry, if one is present. -/
def clientHydrationFeatures (cfg : ApplicationConfig) : Option (List HydrationFeature) :=
  cfg.providers.findSome? fun p =>
    match p with
    | Provider.provideClientHydration fs => some fs
    | _ => none

/-- True when a client-hydration entry is present and its feature list
enables DOM event replay. -/
def hydrationWithEventReplay (cfg : ApplicationConfig) : Bool :=
  match clientHydrationFeatures cfg with
  | some fs => fs.any fun f => f == HydrationFeature.eventReplay
  | none => false

/-- The root-reducer list passed to the store entry, if one is present. -/
def storeRootReducers (cfg : ApplicationConfig) : Option (List Reducer) :=
  cfg.providers.findSome? fun p =>
    match p with
    | Provider.provideStore rs => some rs
    | _ => none

/-- The root-effects list passed to the effects entry, if one is present. -/
def effectsRootSources (cfg : ApplicationConfig) : Option (List EffectsSource) :=
  cfg.providers.findSome? fun p =>
    match p with
    | Provider.provideEffects es => some es
    | _ => none

/-- The eight recognized configuration options of spec section 6.  The
state container and its effects subsystem form a single option there. -/
inductive OptionKind where
  | errorListeners
  | changeDetection
  | router
  | hydration
  | uiLibrary
  | stateContainerEffects
  | devtools
  | httpTransport
deriving DecidableEq, Repr

/-- Classify a provider entry into the spec's option taxonomy. -/
def providerOption : Provider → OptionKind
  | Provider.provideBrowserGlobalErrorListeners => OptionKind.errorListeners
  | Provider.provideZonelessChangeDetection => OptionKind.changeDetection
  | Provider.provideZoneChangeDetection => OptionKind.changeDetection
  | Provider.provideRouter _ => OptionKind.router
  | Provider.provideClientHydration _ => OptionKind.hydration
  | Provider.providePrimeNG => OptionKind.uiLibrary
  | Provider.provideStore _ => OptionKind.stateContainerEffects
  | Provider.provideEffects _ => OptionKind.stateContainerEffects
  | Provider.provideStoreDevtools _ => OptionKind.devtools
  | Provider.provideHttpClient _ => OptionKind.httpTransport

/-- The number of provider entries of the configuration that belong to a
given option. -/
def entryCount (cfg : ApplicationConfig) (k : OptionKind) : Nat :=
  (cfg.providers.filter fun p => providerOption p == k).length

/-- Claim C1: the devtools `logOnly` field equals the logical negation
of the development-build predicate: whatever value `isDevMode` takes,
the devtools entry carries `logOnly = !isDevMode`, so a development
build gets `logOnly = false` and a production build gets
`logOnly = true`. -/
theorem devtoolsLogOnly_eq_not_isDevMode (routes : List Route) (isDevMode : Bool) :
    devtoolsLogOnly (appConfig routes isDevMode) = some (!isDevMode) := rfl

/-- Claim C2: the devtools `maxAge` field equals 25 for every value of
the development-build predicate and every route table. -/
theorem devtoolsMaxAge_eq_25 (routes : List Route) (isDevMode : Bool) :
    devtoolsMaxAge (appConfig routes isDevMode) = some 25 := rfl

/-- Claim C3 (amended): each of the eight recognized options of spec
section 6 is configured, but the state container / effects option is
configured by two provider entries (one store entry and one effects
entry), while each of the remaining seven options has exactly one entry:
the entry count is 2 for the state container / effects option and 1 for
every other option. -/
theorem appConfig_option_entry_counts (routes : List Route) (isDevMode : Bool)
    (k : OptionKind) :
    entryCount (appConfig routes isDevMode) k =
      if k = OptionKind.stateContainerEffects then 2 else 1 := by
  cases k <;> rfl

/-- Claim C3, counterexample to the claim as stated: at the concrete
inputs of an empty route table and a development build, the providers
list does not contain exactly one entry for every recognized option,
because the state container / effects option has two entries
(`provideStore()` and `provideEffects()`). -/
theorem appConfig_not_one_entry_per_option :
    ¬ (∀ k : OptionKind, entryCount (appConfig [] true) k = 1) := fun h =>
  absurd (h OptionKind.stateContainerEffects) (by decide)

/-- Claim C4: the HTTP-client entry always selects the fetch-based
transport: its feature list is exactly the `withFetch` feature, so the
selected transport is fetch and never the default XHR alternative. -/
theorem httpClientTransport_eq_fetch (routes : List Route) (isDevMode : Bool) :
    httpClientFeatures (appConfig routes isDevMode) = some [HttpFeature.fetch] ∧
    httpClientTransport (appConfig routes isDevMode) = some HttpTransport.fetch :=
  ⟨rfl, rfl⟩

/-- Claim C5: constructing the configuration record twice with the same
values of the external inputs (the route table and the development-build
predicate) yields two structurally equal records: the record is a pure
value of those inputs. -/
theorem appConfig_construction_deterministic (routes : List Route) (isDevMode : Bool) :
    appConfig routes isDevMode = appConfig routes isDevMode := rfl

/-- Claim C6: the change-detection entry of the configuration is fixed
to the zone-free (zoneless) mode for every evaluation: the selected mode
is zoneless, never zone-based. -/
theorem changeDetectionMode_eq_zoneless (routes : List Route) (isDevMode : Bool) :
    changeDetectionMode (appConfig routes isDevMode) = some ChangeDetectionMode.zoneless ∧
    changeDetectionMode (appConfig routes isDevMode) ≠ some ChangeDetectionMode.zoneBased :=
  ⟨rfl, fun h => nomatch h⟩

/-- Claim C7: the client-side hydration entry is always present and its
feature list enables DOM event replay: hydration is never configured
without event replay. -/
theorem appConfig_hydration_with_eventReplay (routes : List Route) (isDevMode : Bool) :
    clientHydrationFeatures (appConfig routes isDevMode) = some [HydrationFeature.eventReplay] ∧
    hydrationWithEventReplay (appConfig routes isDevMode) = true :=
  ⟨rfl, rfl⟩

/-- Claim C9: the store and effects entries are initialized with no
arguments: the root-reducer list and the root-effects list of the
configuration are both empty, so nothing is registered at bootstrap. -/
theorem appConfig_store_and_effects_empty (routes : List Route) (isDevMode : Bool) :
    storeRootReducers (appConfig routes isDevMode) = some [] ∧
    effectsRootSources (appConfig routes isDevMode) = some [] :=
  ⟨rfl, rfl⟩

/-- Claim C10: the devtools options object contains exactly the two
fields `maxAge` and `logOnly` and no others: its key list is exactly
`[maxAge, logOnly]`, so no `trace`, `autoPause` or `name` option is set
and every other devtools option keeps its default. -/
theorem devtoolsFieldNames_exactly_maxAge_logOnly (routes : List Route) (isDevMode : Bool) :
    devtoolsFieldNames (appConfig routes isDevMode) =
      some [DevtoolsFieldName.maxAge, DevtoolsFieldName.logOnly] := rfl
